import Mathlib

/-!
Shallow embedding of the Spatial Compliance & Conflict-Resolution Engine
of VoltEstimate (source file `src/utils/validation.ts`, types from
`src/types.ts`).

Modelling conventions:

* JavaScript numbers are modelled as exact rationals (`ℚ`).  All
  coordinates in the claims are small integers, so no floating-point
  rounding is in play.
* The source compares `Math.sqrt(dx^2 + dy^2)` against nonnegative
  thresholds.  We embed the squared distance `distSq` and compare it with
  the squared threshold; lemmas `sqrt_distSq_lt_iff` and
  `lt_sqrt_distSq_iff` below prove this equivalent to the source's
  comparison of the real square root.
* `Math.atan2` followed by `cos`/`sin` in the overlap auto-fix is modelled
  with `Complex.arg` (which has exactly the atan2 semantics, including
  `arg 0 = 0`); see `FixCmd.apply`.
* The source stores an auto-fix closure on each conflict.  The closure
  captures only values fixed at conflict-creation time, so it is embedded
  as first-order data (`FixCmd`) plus the evaluation function
  `FixCmd.apply`.
* Template-literal messages interpolate `toFixed(1)` renderings of
  (possibly irrational) distances.  A message is embedded as a
  constructor carrying the interpolated payloads; the doc comment of each
  constructor records the exact source template.
* `validateAllDevices` mutates `device.conflicts` in place while
  iterating.  No rule evaluator ever reads the `conflicts` field, so the
  mutation is embedded as returning the blueprint with every device's
  `conflicts` field overwritten (the in-place and functional versions are
  observationally identical; the congruence lemmas for the idempotence
  theorem make this independence explicit).
-/

namespace Volt

/-- Device categories (source union type `DeviceType`). -/
inductive DeviceType where
  | smokeDetector
  | heatDetector
  | coDetector
  | pullStation
  | strobe
  | horn
  | camera
  | cardReader
  | doorContact
  | motionSensor
deriving DecidableEq, Repr

/-- System partition (source union type `SystemType`). -/
inductive SystemType where
  | fire
  | cctv
  | access
deriving DecidableEq, Repr

/-- Room categories (source `Room.type`). -/
inductive RoomType where
  | office
  | kitchen
  | hallway
  | stairwell
  | storage
  | other
deriving DecidableEq, Repr

/-- Conflict kinds (source `Conflict.type`). -/
inductive ConflictType where
  | overlap
  | nfpaSpacing
  | wallProximity
  | outsideBoundary
  | coverageGap
deriving DecidableEq, Repr

/-- Conflict severities (source `Conflict.severity`). -/
inductive Severity where
  | error
  | warning
deriving DecidableEq, Repr

/-- The string the source uses for each `DeviceType` value (used in the
NFPA suggestion template). -/
def deviceTypeName : DeviceType → String
  | .smokeDetector => "smoke-detector"
  | .heatDetector => "heat-detector"
  | .coDetector => "co-detector"
  | .pullStation => "pull-station"
  | .strobe => "strobe"
  | .horn => "horn"
  | .camera => "camera"
  | .cardReader => "card-reader"
  | .doorContact => "door-contact"
  | .motionSensor => "motion-sensor"

/-- NFPA 72 spacing requirements in feet (source constant `NFPA_SPACING`). -/
def NFPA_SPACING : DeviceType → ℚ
  | .smokeDetector => 30
  | .heatDetector => 25
  | .coDetector => 15
  | .pullStation => 200
  | .strobe => 100
  | .horn => 100
  | .camera => 0
  | .cardReader => 0
  | .doorContact => 0
  | .motionSensor => 0

/-- Minimum distance from walls in inches (source constant `MIN_WALL_DISTANCE`). -/
def MIN_WALL_DISTANCE : ℚ := 4

/-- Device overlap radius in inches (source constant `OVERLAP_RADIUS`). -/
def OVERLAP_RADIUS : ℚ := 12

/-- Embedding of the template-literal conflict messages.  Each constructor
carries the values the source interpolates:

* `overlapMsg otherName` — source template
  `Device overlaps with {otherDevice.name}`;
* `nfpaMsg devName minDistSq nearestName maxFt` — source template
  `{device.name} is {(minDistance/12).toFixed(1)}ft from nearest
  {nearestDevice.name}, exceeding NFPA 72 maximum of
  {NFPA_SPACING[device.type]}ft`; `minDistSq` is the squared measured
  distance in inches (the rendered number is `sqrt minDistSq / 12`);
* `wallMsg devName wallName minDist minRequired` — source template
  `{device.name} is too close to {wallName} wall ({minDist.toFixed(1)}
  in < {MIN_WALL_DISTANCE} in)`;
* `boundaryMsg devName` — source template
  `{device.name} is placed outside all room boundaries`. -/
inductive ConflictMessage where
  | overlapMsg (otherName : String)
  | nfpaMsg (devName : String) (minDistSq : ℚ) (nearestName : String) (maxFt : ℚ)
  | wallMsg (devName : String) (wallName : String) (minDist : ℚ) (minRequired : ℚ)
  | boundaryMsg (devName : String)
deriving DecidableEq, Repr

/-- Whether a message template interpolates any numeric quantity (this is
the specification's wording for the message requirement, decided per the
templates recorded on `ConflictMessage`: the overlap and boundary
templates interpolate only names, the NFPA and wall templates interpolate
the measured and required distances). -/
def ConflictMessage.mentionsQuantity : ConflictMessage → Bool
  | .overlapMsg _ => false
  | .nfpaMsg _ _ _ _ => true
  | .wallMsg _ _ _ _ => true
  | .boundaryMsg _ => false

/-- First-order embedding of the auto-fix closures the source stores on
conflicts.

* `moveTo x y` — the wall-proximity fix; the closure's captured values
  make its result a constant, computed here at creation time.
* `pushFrom ox oy dx dy` — the overlap fix; the closure captures the
  overlapping device's position `(ox, oy)` and the offset
  `(dx, dy) = (device.x - other.x, device.y - other.y)` and computes
  `(ox + cos(atan2 dy dx) * (OVERLAP_RADIUS + 2),
    oy + sin(atan2 dy dx) * (OVERLAP_RADIUS + 2))`
  (evaluated by `FixCmd.apply`). -/
inductive FixCmd where
  | moveTo (x y : ℚ)
  | pushFrom (ox oy dx dy : ℚ)
deriving DecidableEq, Repr

/-- Evaluation of an auto-fix closure, in exact real arithmetic.
`Math.atan2 dy dx` is `Complex.arg ⟨dx, dy⟩` (both return the angle of
the vector `(dx, dy)` in `(-π, π]`, and both return `0` on the zero
vector). -/
noncomputable def FixCmd.apply : FixCmd → ℝ × ℝ
  | .moveTo x y => ((x : ℝ), (y : ℝ))
  | .pushFrom ox oy dx dy =>
      ((ox : ℝ) + Real.cos (Complex.arg ⟨(dx : ℝ), (dy : ℝ)⟩) * ((OVERLAP_RADIUS : ℝ) + 2),
       (oy : ℝ) + Real.sin (Complex.arg ⟨(dx : ℝ), (dy : ℝ)⟩) * ((OVERLAP_RADIUS : ℝ) + 2))

/-- Source interface `Conflict`.  `autoFix` is the embedded closure
(`none` models the source's `null`). -/
structure Conflict where
  id : String
  deviceId : String
  type : ConflictType
  severity : Severity
  message : ConflictMessage
  relatedDeviceId : Option String := none
  suggestion : Option String := none
  autoFix : Option FixCmd := none
deriving DecidableEq, Repr

/-- The wall name carried by a wall-proximity message, if any. -/
def Conflict.wallNameOf : Conflict → Option String
  | { message := .wallMsg _ w _ _, .. } => some w
  | _ => none

/-- Source interface `Device`.  The untyped `properties` record is
modelled as an association list; it is never read by the engine. -/
structure Device where
  id : String
  type : DeviceType
  system : SystemType
  x : ℚ
  y : ℚ
  name : String
  rotation : ℚ := 0
  properties : List (String × String) := []
  conflicts : List Conflict := []
deriving DecidableEq, Repr

/-- Source interface `Room`. -/
structure Room where
  id : String
  name : String
  type : RoomType
  x : ℚ
  y : ℚ
  width : ℚ
  height : ℚ
deriving DecidableEq, Repr

/-- Source interface `Blueprint` (fields beyond `devices`/`rooms` are
carried for fidelity; the engine does not read them). -/
structure Blueprint where
  id : String
  projectId : String
  name : String
  url : String
  scale : ℚ
  devices : List Device
  rooms : List Room
  width : ℚ
  height : ℚ
deriving DecidableEq, Repr

/-- Source interface `ValidationContext`. -/
structure ValidationContext where
  devices : List Device
  rooms : List Room
  blueprint : Blueprint
deriving DecidableEq, Repr

/-- Squared Euclidean distance between two devices.  The source computes
`Math.sqrt` of this and compares against nonnegative thresholds, which is
equivalent to comparing this value against the squared threshold (lemmas
`sqrt_distSq_lt_iff`, `lt_sqrt_distSq_iff`, `sqrt_distSq_lt_sqrt_iff`). -/
def distSq (d o : Device) : ℚ := (d.x - o.x) ^ 2 + (d.y - o.y) ^ 2

/-- Inclusive point-in-rectangle test (the body of the source's
`findContainingRoom` loop). -/
def pointInRect (d : Device) (room : Room) : Bool :=
  decide (room.x ≤ d.x) && decide (d.x ≤ room.x + room.width) &&
  decide (room.y ≤ d.y) && decide (d.y ≤ room.y + room.height)

/-- Source `findContainingRoom`: first room in iteration order containing
the device's position. -/
def findContainingRoom (d : Device) (rooms : List Room) : Option Room :=
  rooms.find? (fun room => pointInRect d room)

/-- The conflict record built by `checkOverlap` when it finds `other`
within `OVERLAP_RADIUS` of `device` (the body of the source's early
`return`). -/
def overlapConflict (device other : Device) : Conflict :=
  { id := "conflict-" ++ device.id ++ "-overlap-" ++ other.id
    deviceId := device.id
    type := .overlap
    severity := .error
    message := .overlapMsg other.name
    relatedDeviceId := some other.id
    suggestion := some ("Move device away from " ++ other.name)
    autoFix := some (.pushFrom other.x other.y (device.x - other.x) (device.y - other.y)) }

/-- The loop of the source's `checkOverlap`: scan the device list in
order, skip the device itself and devices of another system, and return
on the first device strictly within `OVERLAP_RADIUS`. -/
def checkOverlapAux (device : Device) : List Device → Option Conflict
  | [] => none
  | other :: rest =>
      if other.id = device.id then checkOverlapAux device rest
      else if other.system ≠ device.system then checkOverlapAux device rest
      else if distSq device other < OVERLAP_RADIUS ^ 2 then some (overlapConflict device other)
      else checkOverlapAux device rest

/-- Source `checkOverlap`. -/
def checkOverlap (device : Device) (context : ValidationContext) : Option Conflict :=
  checkOverlapAux device context.devices

/-- One iteration of the source's `checkNFPASpacing` loop: the
accumulator is `some (nearestDevice, minDistanceSquared)`, `none` playing
the role of the initial `minDistance = Infinity`. -/
def nfpaStep (device : Device) (acc : Option (Device × ℚ)) (other : Device) :
    Option (Device × ℚ) :=
  if other.id = device.id then acc
  else if other.system ≠ SystemType.fire then acc
  else if other.type ≠ device.type then acc
  else
    match acc with
    | none => some (other, distSq device other)
    | some (nd, m) =>
        if distSq device other < m then some (other, distSq device other) else some (nd, m)

/-- Source `checkNFPASpacing`.  The source guard `!NFPA_SPACING[device.type]`
is falsy exactly when the table value is the literal `0`. -/
def checkNFPASpacing (device : Device) (context : ValidationContext) : Option Conflict :=
  if device.system ≠ SystemType.fire then none
  else if NFPA_SPACING device.type = 0 then none
  else
    match context.devices.foldl (nfpaStep device) none with
    | none => none
    | some (nearestDevice, minDistSq) =>
        if (NFPA_SPACING device.type * 12) ^ 2 < minDistSq then
          some { id := "conflict-" ++ device.id ++ "-nfpa"
                 deviceId := device.id
                 type := .nfpaSpacing
                 severity := .warning
                 message := .nfpaMsg device.name minDistSq nearestDevice.name
                   (NFPA_SPACING device.type)
                 relatedDeviceId := some nearestDevice.id
                 suggestion := some ("Add a " ++ deviceTypeName device.type ++
                   " between these devices")
                 autoFix := none }
        else none

/-- Source `checkWallProximity`.  The auto-fix closure's captured values
are all fixed at creation time, so its result is computed here and stored
as `FixCmd.moveTo`; the `else if` chain of the closure is reproduced
verbatim (the final `else (device.x, device.y)` arm is unreachable since
the minimum of four values equals one of them, but is kept for
fidelity). -/
def checkWallProximity (device : Device) (context : ValidationContext) : Option Conflict :=
  match findContainingRoom device context.rooms with
  | none => none
  | some room =>
      let distLeft := device.x - room.x
      let distRight := room.x + room.width - device.x
      let distTop := device.y - room.y
      let distBottom := room.y + room.height - device.y
      let minDist := min (min (min distLeft distRight) distTop) distBottom
      if minDist < MIN_WALL_DISTANCE then
        let wallName := if minDist = distLeft then "left"
          else if minDist = distRight then "right"
          else if minDist = distTop then "top"
          else "bottom"
        let fixTarget :=
          if minDist = distLeft then (room.x + MIN_WALL_DISTANCE + 1, device.y)
          else if minDist = distRight then (room.x + room.width - MIN_WALL_DISTANCE - 1, device.y)
          else if minDist = distTop then (device.x, room.y + MIN_WALL_DISTANCE + 1)
          else if minDist = distBottom then (device.x, room.y + room.height - MIN_WALL_DISTANCE - 1)
          else (device.x, device.y)
        some { id := "conflict-" ++ device.id ++ "-wall"
               deviceId := device.id
               type := .wallProximity
               severity := .error
               message := .wallMsg device.name wallName minDist MIN_WALL_DISTANCE
               relatedDeviceId := none
               suggestion := some "Move device at least 4 inches from walls"
               autoFix := some (.moveTo fixTarget.1 fixTarget.2) }
      else none

/-- Source `checkBoundary`. -/
def checkBoundary (device : Device) (context : ValidationContext) : Option Conflict :=
  match findContainingRoom device context.rooms with
  | some _ => none
  | none =>
      some { id := "conflict-" ++ device.id ++ "-boundary"
             deviceId := device.id
             type := .outsideBoundary
             severity := .error
             message := .boundaryMsg device.name
             relatedDeviceId := none
             suggestion := some "Move device inside a room"
             autoFix := none }

/-- Source `validateDevice`: run the four evaluators in order and collect
the non-null results. -/
def validateDevice (device : Device) (context : ValidationContext) : List Conflict :=
  (checkOverlap device context).toList ++ (checkNFPASpacing device context).toList ++
  (checkWallProximity device context).toList ++ (checkBoundary device context).toList

/-- The `ValidationContext` record built at the top of the source's
`validateAllDevices`. -/
def ctxOf (blueprint : Blueprint) : ValidationContext :=
  { devices := blueprint.devices, rooms := blueprint.rooms, blueprint := blueprint }

/-- Source `validateAllDevices`: validate every device against the full
context, overwrite each device's `conflicts` field, and return the flat
conflict list.  (The source mutates in place; see the header comment.) -/
def validateAllDevices (blueprint : Blueprint) : Blueprint × List Conflict :=
  ({ blueprint with
      devices := blueprint.devices.map
        fun d => { d with conflicts := validateDevice d (ctxOf blueprint) } },
   blueprint.devices.flatMap fun d => validateDevice d (ctxOf blueprint))

/-! Derived definitions: the loop predicates and let-bound values of the
checks, named so the lemmas below can mention them, followed by the
concrete layouts the counterexamples and witnesses evaluate. -/

/-- The test the source's `checkOverlap` loop applies to each other
device: not the device itself, same system, strictly within
`OVERLAP_RADIUS`. -/
def overlapHit (device other : Device) : Bool :=
  decide (other.id ≠ device.id) && decide (other.system = device.system) &&
  decide (distSq device other < OVERLAP_RADIUS ^ 2)

/-- Eligibility for the NFPA nearest-neighbor search: the conditions the
source's loop does not `continue` past. -/
def nfpaElig (device other : Device) : Prop :=
  other.id ≠ device.id ∧ other.system = SystemType.fire ∧ other.type = device.type

/-- The conflict record `checkNFPASpacing` builds, with the fold's
`minDistance` invariant (`minDistSq = distSq device nearest`) already
substituted. -/
def nfpaConflict (device nearest : Device) : Conflict :=
  { id := "conflict-" ++ device.id ++ "-nfpa"
    deviceId := device.id
    type := .nfpaSpacing
    severity := .warning
    message := .nfpaMsg device.name (distSq device nearest) nearest.name
      (NFPA_SPACING device.type)
    relatedDeviceId := some nearest.id
    suggestion := some ("Add a " ++ deviceTypeName device.type ++ " between these devices")
    autoFix := none }

/-- The `minDist` let-binding of `checkWallProximity`: minimum of the four
perpendicular wall distances, associated as `Math.min(a, b, c, d)` is. -/
def wallMinDist (device : Device) (room : Room) : ℚ :=
  min (min (min (device.x - room.x) (room.x + room.width - device.x)) (device.y - room.y))
    (room.y + room.height - device.y)

/-- The `wallName` conditional chain of `checkWallProximity`: the first
wall in the order left, right, top, bottom whose distance equals the
minimum. -/
def wallNameChain (device : Device) (room : Room) : String :=
  if wallMinDist device room = device.x - room.x then "left"
  else if wallMinDist device room = room.x + room.width - device.x then "right"
  else if wallMinDist device room = device.y - room.y then "top"
  else "bottom"

/-- The position computed by the wall-proximity auto-fix closure. -/
def wallFixTarget (device : Device) (room : Room) : ℚ × ℚ :=
  if wallMinDist device room = device.x - room.x then
    (room.x + MIN_WALL_DISTANCE + 1, device.y)
  else if wallMinDist device room = room.x + room.width - device.x then
    (room.x + room.width - MIN_WALL_DISTANCE - 1, device.y)
  else if wallMinDist device room = device.y - room.y then
    (device.x, room.y + MIN_WALL_DISTANCE + 1)
  else if wallMinDist device room = room.y + room.height - device.y then
    (device.x, room.y + room.height - MIN_WALL_DISTANCE - 1)
  else (device.x, device.y)

/-- The conflict record `checkWallProximity` builds. -/
def wallConflict (device : Device) (room : Room) : Conflict :=
  { id := "conflict-" ++ device.id ++ "-wall"
    deviceId := device.id
    type := .wallProximity
    severity := .error
    message := .wallMsg device.name (wallNameChain device room) (wallMinDist device room)
      MIN_WALL_DISTANCE
    relatedDeviceId := none
    suggestion := some "Move device at least 4 inches from walls"
    autoFix := some (.moveTo (wallFixTarget device room).1 (wallFixTarget device room).2) }

/-- Erase the `conflicts` field. -/
def strip (d : Device) : Device := { d with conflicts := [] }

/-- The conflict record `checkBoundary` builds. -/
def boundaryConflict (device : Device) : Conflict :=
  { id := "conflict-" ++ device.id ++ "-boundary"
    deviceId := device.id
    type := .outsideBoundary
    severity := .error
    message := .boundaryMsg device.name
    relatedDeviceId := none
    suggestion := some "Move device inside a room"
    autoFix := none }

/-- A device with the engine-relevant fields set (name equal to id). -/
def mkDevice (i : String) (t : DeviceType) (s : SystemType) (px py : ℚ) : Device :=
  { id := i, type := t, system := s, x := px, y := py, name := i }

/-- A blueprint around a device and room list. -/
def mkBlueprint (devs : List Device) (rs : List Room) : Blueprint :=
  { id := "bp", projectId := "proj", name := "plan", url := "u", scale := 1,
    devices := devs, rooms := rs, width := 1000, height := 1000 }

/-- A 100 by 100 inch office room at the origin. -/
def roomA : Room :=
  { id := "r1", name := "Room 1", type := .office, x := 0, y := 0, width := 100, height := 100 }

/-- The overlap-related ids a full pass attaches to the device with the
given id. -/
def overlapRelateds (bp : Blueprint) (did : String) : List (Option String) :=
  ((validateAllDevices bp).1.devices.filter (fun d => decide (d.id = did))).flatMap
    (fun d => (d.conflicts.filter (fun c => decide (c.type = ConflictType.overlap))).map
      (fun c => c.relatedDeviceId))

def c1devX : Device := mkDevice "X" .camera .cctv 0 0

def c1devA : Device := mkDevice "A" .camera .cctv 20 0

def c1devB : Device := mkDevice "B" .camera .cctv 10 0

/-- Three same-system cameras on a line: X at 0, A at 20, B at 10 inches.
A's only in-radius neighbor is B (X is 20 inches away), but B's first
in-radius neighbor in iteration order is X (10 inches away). -/
def c1bp : Blueprint := mkBlueprint [c1devX, c1devA, c1devB] []

def c2devA : Device := mkDevice "A" .camera .cctv 5 5

def c2devB : Device := mkDevice "B" .camera .cctv 5 5

/-- Two coincident same-system cameras outside any room. -/
def c2bp : Blueprint := mkBlueprint [c2devA, c2devB] []

def c3dev : Device := mkDevice "D" .camera .cctv 1 2

/-- One camera 1 inch from the left wall and 2 inches from the top wall
of `roomA`. -/
def c3bp : Blueprint := mkBlueprint [c3dev] [roomA]

def c3devFixed : Device := mkDevice "D" .camera .cctv 5 2

/-- The same layout after applying the wall-proximity auto-fix to `c3dev`
(its computed target is `(5, 2)`). -/
def c3bpFixed : Blueprint := mkBlueprint [c3devFixed] [roomA]

def c1wA : Device := mkDevice "A" .camera .cctv 0 0

def c1wB : Device := mkDevice "B" .camera .cctv 5 0

/-- Two cameras 5 inches apart. -/
def c1wbp : Blueprint := mkBlueprint [c1wA, c1wB] []

def c2wdev : Device := mkDevice "W" .camera .cctv 2 50

/-- One camera 2 inches from the left wall of `roomA`. -/
def c2wbp : Blueprint := mkBlueprint [c2wdev] [roomA]

def c4dev0 : Device := mkDevice "S0" .smokeDetector .fire 0 0

def c4dev1 : Device := mkDevice "S1" .smokeDetector .fire 480 0

def c4dev2 : Device := mkDevice "S2" .smokeDetector .fire 960 0

/-- Three fire smoke detectors on a line at 0, 40 and 80 feet (0, 480 and
960 inches): the spec's nearest-neighbor scenario. -/
def c4ctx : ValidationContext :=
  { devices := [c4dev0, c4dev1, c4dev2], rooms := [],
    blueprint := mkBlueprint [c4dev0, c4dev1, c4dev2] [] }

def c6dev : Device := mkDevice "D6" .camera .cctv 3 3

/-- One camera exactly 3 inches from both the left and top walls of
`roomA`. -/
def c6ctx : ValidationContext :=
  { devices := [c6dev], rooms := [roomA], blueprint := mkBlueprint [c6dev] [roomA] }

def c7devA : Device := mkDevice "A7" .camera .cctv 0 0

def c7devB : Device := mkDevice "B7" .camera .cctv 13 0

def c7devC : Device := mkDevice "C7" .camera .cctv 12 0

/-- Two same-system cameras exactly `OVERLAP_RADIUS + 1` inches apart. -/
def c7ctx13 : ValidationContext :=
  { devices := [c7devA, c7devB], rooms := [], blueprint := mkBlueprint [c7devA, c7devB] [] }

/-- Two same-system cameras exactly `OVERLAP_RADIUS` inches apart. -/
def c7ctx12 : ValidationContext :=
  { devices := [c7devA, c7devC], rooms := [], blueprint := mkBlueprint [c7devA, c7devC] [] }

def c8dev : Device := mkDevice "D8" .camera .cctv 500 500

/-- One camera far outside `roomA`. -/
def c8bp : Blueprint := mkBlueprint [c8dev] [roomA]

def c8updated : Device := { c8dev with conflicts := validateDevice c8dev (ctxOf c8bp) }

def c9dev : Device := mkDevice "D9" .camera .cctv 500 500

/-- One camera and no rooms at all. -/
def c9bp : Blueprint := mkBlueprint [c9dev] []

def c9updated : Device := { c9dev with conflicts := validateDevice c9dev (ctxOf c9bp) }

def c10devA : Device := mkDevice "P" .camera .cctv 5 7

def c10devB : Device := mkDevice "Q" .camera .cctv 5 7

/-- Two exactly coincident same-system cameras. -/
def c10ctx : ValidationContext :=
  { devices := [c10devA, c10devB], rooms := [],
    blueprint := mkBlueprint [c10devA, c10devB] [] }

/-! Fidelity of the squared-distance embedding: comparing the source's
`Math.sqrt(distSq)` against a positive threshold, or two square roots
against each other, is equivalent to the rational comparisons used in the
definitions above. -/

lemma distSq_nonneg (d o : Device) : 0 ≤ distSq d o := by
  unfold distSq; positivity

/-- The source's `distance < threshold` (with `distance = sqrt distSq`)
is the embedded `distSq < threshold ^ 2`, for any positive threshold. -/
lemma sqrt_distSq_lt_iff (d o : Device) (r : ℚ) (hr : 0 < r) :
    Real.sqrt ((distSq d o : ℚ) : ℝ) < ((r : ℚ) : ℝ) ↔ distSq d o < r ^ 2 := by
  rw [Real.sqrt_lt' (by exact_mod_cast hr)]
  norm_cast

/-- The source's `threshold < distance` is the embedded
`threshold ^ 2 < distSq`, for any nonnegative threshold. -/
lemma lt_sqrt_distSq_iff (d o : Device) (r : ℚ) (hr : 0 ≤ r) :
    ((r : ℚ) : ℝ) < Real.sqrt ((distSq d o : ℚ) : ℝ) ↔ r ^ 2 < distSq d o := by
  rw [Real.lt_sqrt (by exact_mod_cast hr)]
  norm_cast

/-- The source's `distance < minDistance` comparison between two square
roots is the embedded comparison of the squared distances. -/
lemma sqrt_distSq_lt_sqrt_iff (d o o' : Device) :
    Real.sqrt ((distSq d o : ℚ) : ℝ) < Real.sqrt ((distSq d o' : ℚ) : ℝ) ↔
      distSq d o < distSq d o' := by
  rw [Real.sqrt_lt_sqrt_iff (by exact_mod_cast distSq_nonneg d o)]
  exact Rat.cast_lt

lemma distSq_comm (d o : Device) : distSq d o = distSq o d := by
  unfold distSq; ring

/-! Characterization of `checkOverlap`. -/

lemma checkOverlapAux_eq_find (device : Device) (l : List Device) :
    checkOverlapAux device l =
      (l.find? (overlapHit device)).map (overlapConflict device) := by
  induction l with
  | nil => rfl
  | cons o rest ih =>
      by_cases h1 : o.id = device.id
      · have hhit : overlapHit device o = false := by simp [overlapHit, h1]
        simp [checkOverlapAux, h1, List.find?_cons, hhit, ih]
      · by_cases h2 : o.system = device.system
        · by_cases h3 : distSq device o < OVERLAP_RADIUS ^ 2
          · have hhit : overlapHit device o = true := by simp [overlapHit, h1, h2, h3]
            simp [checkOverlapAux, h1, h2, h3, List.find?_cons, hhit]
          · have hhit : overlapHit device o = false := by simp [overlapHit, h3]
            simp [checkOverlapAux, h1, h2, h3, List.find?_cons, hhit, ih]
        · have hhit : overlapHit device o = false := by simp [overlapHit, h2]
          simp [checkOverlapAux, h1, h2, List.find?_cons, hhit, ih]

lemma checkOverlap_isSome_iff (device : Device) (context : ValidationContext) :
    (checkOverlap device context).isSome ↔
      ∃ o ∈ context.devices, o.id ≠ device.id ∧ o.system = device.system ∧
        distSq device o < OVERLAP_RADIUS ^ 2 := by
  rw [checkOverlap, checkOverlapAux_eq_find, Option.isSome_map']
  rw [List.find?_isSome]
  constructor
  · rintro ⟨o, ho, hhit⟩
    refine ⟨o, ho, ?_⟩
    simpa [overlapHit, and_assoc] using hhit
  · rintro ⟨o, ho, h⟩
    exact ⟨o, ho, by simpa [overlapHit, and_assoc] using h⟩

lemma checkOverlap_eq_some (device : Device) (context : ValidationContext) (c : Conflict)
    (h : checkOverlap device context = some c) :
    ∃ o ∈ context.devices, o.id ≠ device.id ∧ o.system = device.system ∧
      distSq device o < OVERLAP_RADIUS ^ 2 ∧ c = overlapConflict device o := by
  rw [checkOverlap, checkOverlapAux_eq_find] at h
  rcases Option.map_eq_some'.mp h with ⟨o, hfind, hc⟩
  have hhit : overlapHit device o = true := List.find?_some hfind
  rw [overlapHit] at hhit
  simp only [Bool.and_eq_true, decide_eq_true_eq] at hhit
  exact ⟨o, List.mem_of_find?_eq_some hfind, hhit.1.1, hhit.1.2, hhit.2, hc.symm⟩

lemma overlapConflict_type (d o : Device) : (overlapConflict d o).type = ConflictType.overlap :=
  rfl

lemma checkOverlap_some_type (device : Device) (context : ValidationContext) (c : Conflict)
    (h : checkOverlap device context = some c) : c.type = ConflictType.overlap := by
  rcases checkOverlap_eq_some device context c h with ⟨o, -, -, -, -, rfl⟩
  rfl

/-! Characterization of `checkNFPASpacing`. -/

lemma nfpaStep_not_elig (device o : Device) (acc : Option (Device × ℚ))
    (h : ¬ nfpaElig device o) : nfpaStep device acc o = acc := by
  by_cases h1 : o.id = device.id
  · simp [nfpaStep, h1]
  · by_cases h2 : o.system = SystemType.fire
    · by_cases h3 : o.type = device.type
      · exact absurd ⟨h1, h2, h3⟩ h
      · simp [nfpaStep, h1, h2, h3]
    · simp [nfpaStep, h1, h2]

lemma nfpaStep_elig_none (device o : Device) (h : nfpaElig device o) :
    nfpaStep device none o = some (o, distSq device o) := by
  obtain ⟨h1, h2, h3⟩ := h
  simp [nfpaStep, h1, h2, h3]

lemma nfpaStep_elig_some_lt (device o nd : Device) (m : ℚ) (h : nfpaElig device o)
    (hlt : distSq device o < m) :
    nfpaStep device (some (nd, m)) o = some (o, distSq device o) := by
  obtain ⟨h1, h2, h3⟩ := h
  simp [nfpaStep, h1, h2, h3, hlt]

lemma nfpaStep_elig_some_ge (device o nd : Device) (m : ℚ) (h : nfpaElig device o)
    (hge : ¬ distSq device o < m) :
    nfpaStep device (some (nd, m)) o = some (nd, m) := by
  obtain ⟨h1, h2, h3⟩ := h
  simp [nfpaStep, h1, h2, h3, hge]

/-- The nearest-neighbor fold returns `none` exactly when it starts from
`none` (no candidate yet) and no device in the list is eligible. -/
lemma nfpaFold_eq_none (device : Device) :
    ∀ (l : List Device) (acc : Option (Device × ℚ)),
      l.foldl (nfpaStep device) acc = none ↔
        acc = none ∧ ∀ o ∈ l, ¬ nfpaElig device o := by
  intro l
  induction l with
  | nil => intro acc; simp
  | cons o rest ih =>
      intro acc
      by_cases h : nfpaElig device o
      · rw [List.foldl_cons]
        have hne : nfpaStep device acc o ≠ none := by
          cases acc with
          | none => rw [nfpaStep_elig_none device o h]; simp
          | some q =>
              obtain ⟨nd, m⟩ := q
              by_cases hlt : distSq device o < m
              · rw [nfpaStep_elig_some_lt device o nd m h hlt]; simp
              · rw [nfpaStep_elig_some_ge device o nd m h hlt]; simp
        rw [ih]
        constructor
        · rintro ⟨hacc, -⟩; exact absurd hacc hne
        · rintro ⟨-, hall⟩; exact absurd h (hall o (by simp))
      · rw [List.foldl_cons, nfpaStep_not_elig device o acc h, ih]
        constructor
        · rintro ⟨hacc, hall⟩
          refine ⟨hacc, ?_⟩
          intro o' ho'
          rcases List.mem_cons.mp ho' with rfl | ho'
          · exact h
          · exact hall o' ho'
        · rintro ⟨hacc, hall⟩
          exact ⟨hacc, fun o' ho' => hall o' (List.mem_cons_of_mem _ ho')⟩

/-- Invariants of the nearest-neighbor fold: the returned distance is the
squared distance to the returned device; the returned device is either
the initial accumulator or an eligible member of the list; the returned
distance is a lower bound on all eligible distances in the list; and the
fold never increases the accumulated minimum. -/
lemma nfpaFold_spec (device : Device) :
    ∀ (l : List Device) (acc : Option (Device × ℚ)),
      (∀ p : Device × ℚ, acc = some p → p.2 = distSq device p.1) →
      ∀ n m, l.foldl (nfpaStep device) acc = some (n, m) →
        m = distSq device n ∧
        (acc = some (n, m) ∨ (n ∈ l ∧ nfpaElig device n)) ∧
        (∀ o ∈ l, nfpaElig device o → m ≤ distSq device o) ∧
        (∀ p : Device × ℚ, acc = some p → m ≤ p.2) := by
  intro l
  induction l with
  | nil =>
      intro acc hinv n m hfold
      rw [List.foldl_nil] at hfold
      refine ⟨hinv (n, m) hfold, Or.inl hfold, by simp, ?_⟩
      intro p hp
      rw [hfold] at hp
      rw [← Option.some.inj hp]
  | cons o rest ih =>
      intro acc hinv n m hfold
      rw [List.foldl_cons] at hfold
      by_cases h : nfpaElig device o
      · cases acc with
        | none =>
            rw [nfpaStep_elig_none device o h] at hfold
            have hinv' : ∀ p : Device × ℚ,
                (some (o, distSq device o) : Option (Device × ℚ)) = some p →
                  p.2 = distSq device p.1 := by
              intro p hp
              rw [← Option.some.inj hp]
            obtain ⟨hm, hdisj, hall, hacc⟩ := ih (some (o, distSq device o)) hinv' n m hfold
            refine ⟨hm, ?_, ?_, ?_⟩
            · rcases hdisj with heq | ⟨hmem, helig⟩
              · have h' : (o, distSq device o) = (n, m) := Option.some.inj heq
                cases h'
                exact Or.inr ⟨List.mem_cons_self o rest, h⟩
              · exact Or.inr ⟨List.mem_cons_of_mem _ hmem, helig⟩
            · intro o' ho' helig'
              rcases List.mem_cons.mp ho' with rfl | ho'
              · exact hacc (o', distSq device o') rfl
              · exact hall o' ho' helig'
            · intro p hp
              exact Option.noConfusion hp
        | some q =>
            obtain ⟨nd, m₀⟩ := q
            by_cases hlt : distSq device o < m₀
            · rw [nfpaStep_elig_some_lt device o nd m₀ h hlt] at hfold
              have hinv' : ∀ p : Device × ℚ,
                  (some (o, distSq device o) : Option (Device × ℚ)) = some p →
                    p.2 = distSq device p.1 := by
                intro p hp
                rw [← Option.some.inj hp]
              obtain ⟨hm, hdisj, hall, hacc⟩ := ih (some (o, distSq device o)) hinv' n m hfold
              refine ⟨hm, ?_, ?_, ?_⟩
              · rcases hdisj with heq | ⟨hmem, helig⟩
                · have h' : (o, distSq device o) = (n, m) := Option.some.inj heq
                  cases h'
                  exact Or.inr ⟨List.mem_cons_self o rest, h⟩
                · exact Or.inr ⟨List.mem_cons_of_mem _ hmem, helig⟩
              · intro o' ho' helig'
                rcases List.mem_cons.mp ho' with rfl | ho'
                · exact hacc (o', distSq device o') rfl
                · exact hall o' ho' helig'
              · intro p hp
                have h' : (nd, m₀) = p := Option.some.inj hp
                cases h'
                exact le_trans (hacc (o, distSq device o) rfl) hlt.le
            · rw [nfpaStep_elig_some_ge device o nd m₀ h hlt] at hfold
              have hinv' : ∀ p : Device × ℚ,
                  (some (nd, m₀) : Option (Device × ℚ)) = some p →
                    p.2 = distSq device p.1 := by
                intro p hp
                rw [← Option.some.inj hp]
                exact hinv (nd, m₀) rfl
              obtain ⟨hm, hdisj, hall, hacc⟩ := ih (some (nd, m₀)) hinv' n m hfold
              refine ⟨hm, ?_, ?_, ?_⟩
              · rcases hdisj with heq | ⟨hmem, helig⟩
                · exact Or.inl heq
                · exact Or.inr ⟨List.mem_cons_of_mem _ hmem, helig⟩
              · intro o' ho' helig'
                rcases List.mem_cons.mp ho' with rfl | ho'
                · exact le_trans (hacc (nd, m₀) rfl) (not_lt.mp hlt)
                · exact hall o' ho' helig'
              · intro p hp
                have h' : (nd, m₀) = p := Option.some.inj hp
                cases h'
                exact hacc (nd, m₀) rfl
      · rw [nfpaStep_not_elig device o acc h] at hfold
        obtain ⟨hm, hdisj, hall, hacc⟩ := ih acc hinv n m hfold
        refine ⟨hm, ?_, ?_, hacc⟩
        · rcases hdisj with heq | ⟨hmem, helig⟩
          · exact Or.inl heq
          · exact Or.inr ⟨List.mem_cons_of_mem _ hmem, helig⟩
        · intro o' ho' helig'
          rcases List.mem_cons.mp ho' with rfl | ho'
          · exact absurd helig' h
          · exact hall o' ho' helig'

/-- What a produced NFPA conflict means: the related device is an
eligible device at minimal distance among all eligible devices, and that
minimal distance strictly exceeds the converted spacing value. -/
lemma checkNFPASpacing_eq_some (device : Device) (context : ValidationContext) (c : Conflict)
    (h : checkNFPASpacing device context = some c) :
    device.system = SystemType.fire ∧ NFPA_SPACING device.type ≠ 0 ∧
      ∃ n ∈ context.devices, nfpaElig device n ∧
        (NFPA_SPACING device.type * 12) ^ 2 < distSq device n ∧
        (∀ o ∈ context.devices, nfpaElig device o → distSq device n ≤ distSq device o) ∧
        c = nfpaConflict device n := by
  rw [checkNFPASpacing] at h
  by_cases h1 : device.system ≠ SystemType.fire
  · rw [if_pos h1] at h
    exact Option.noConfusion h
  · rw [if_neg h1] at h
    by_cases h2 : NFPA_SPACING device.type = 0
    · rw [if_pos h2] at h
      exact Option.noConfusion h
    · rw [if_neg h2] at h
      refine ⟨not_not.mp h1, h2, ?_⟩
      rcases hfold : context.devices.foldl (nfpaStep device) none with - | ⟨nd, m⟩
      · rw [hfold] at h
        exact Option.noConfusion h
      · obtain ⟨hm, hdisj, hall, -⟩ :=
          nfpaFold_spec device context.devices none
            (fun p hp => Option.noConfusion hp) nd m hfold
        subst hm
        rw [hfold] at h
        have h' : (if (NFPA_SPACING device.type * 12) ^ 2 < distSq device nd then
            some (nfpaConflict device nd) else none) = some c := h
        by_cases h3 : (NFPA_SPACING device.type * 12) ^ 2 < distSq device nd
        · rw [if_pos h3] at h'
          rcases hdisj with heq | ⟨hmem, helig⟩
          · exact Option.noConfusion heq
          · exact ⟨nd, hmem, helig, h3, hall, (Option.some.inj h').symm⟩
        · rw [if_neg h3] at h'
          exact Option.noConfusion h'

/-- Conversely, an eligible nearest device farther than the converted
spacing value forces a conflict to be reported. -/
lemma checkNFPASpacing_isSome_of (device : Device) (context : ValidationContext)
    (h1 : device.system = SystemType.fire) (h2 : NFPA_SPACING device.type ≠ 0)
    (n : Device) (hn : n ∈ context.devices) (helig : nfpaElig device n)
    (hgt : (NFPA_SPACING device.type * 12) ^ 2 < distSq device n)
    (hmin : ∀ o ∈ context.devices, nfpaElig device o → distSq device n ≤ distSq device o) :
    (checkNFPASpacing device context).isSome := by
  rcases hfold : context.devices.foldl (nfpaStep device) none with - | ⟨nd, m⟩
  · rw [nfpaFold_eq_none] at hfold
    exact absurd helig (hfold.2 n hn)
  · obtain ⟨hm, hdisj, hall, -⟩ :=
      nfpaFold_spec device context.devices none
        (fun p hp => Option.noConfusion hp) nd m hfold
    rcases hdisj with heq | ⟨hmem, helig'⟩
    · exact Option.noConfusion heq
    · subst hm
      have hge : distSq device n ≤ distSq device nd := hmin nd hmem helig'
      have h3 : (NFPA_SPACING device.type * 12) ^ 2 < distSq device nd :=
        lt_of_lt_of_le hgt hge
      rw [checkNFPASpacing, if_neg (not_not.mpr h1), if_neg h2, hfold]
      show (if (NFPA_SPACING device.type * 12) ^ 2 < distSq device nd then
          some (nfpaConflict device nd) else none).isSome
      rw [if_pos h3]
      rfl

lemma checkNFPASpacing_some_shape (device : Device) (context : ValidationContext) (c : Conflict)
    (h : checkNFPASpacing device context = some c) :
    c.type = ConflictType.nfpaSpacing ∧ c.severity = Severity.warning ∧ c.autoFix = none := by
  rcases checkNFPASpacing_eq_some device context c h with ⟨-, -, n, -, -, -, -, rfl⟩
  exact ⟨rfl, rfl, rfl⟩

/-! Characterization of `checkWallProximity`.  The let-bound values of the
source are given names (`wallMinDist`, `wallNameChain`, `wallFixTarget`)
so the produced conflict can be written down; `checkWallProximity_of_room`
proves the body equal to the zeta-expanded form. -/

lemma checkWallProximity_of_room (device : Device) (context : ValidationContext) (room : Room)
    (hroom : findContainingRoom device context.rooms = some room) :
    checkWallProximity device context =
      if wallMinDist device room < MIN_WALL_DISTANCE then some (wallConflict device room)
      else none := by
  rw [checkWallProximity, hroom]
  rfl

lemma checkWallProximity_of_no_room (device : Device) (context : ValidationContext)
    (hroom : findContainingRoom device context.rooms = none) :
    checkWallProximity device context = none := by
  rw [checkWallProximity, hroom]

lemma wallConflict_wallNameOf (device : Device) (room : Room) :
    (wallConflict device room).wallNameOf = some (wallNameChain device room) := rfl

lemma wallNameChain_eq_left (device : Device) (room : Room)
    (h : wallNameChain device room = "left") :
    wallMinDist device room = device.x - room.x := by
  by_contra hne
  rw [wallNameChain, if_neg hne] at h
  split_ifs at h <;> simp at h

/-! Shape of wall-proximity and boundary conflicts. -/

lemma checkWallProximity_some_shape (device : Device) (context : ValidationContext) (c : Conflict)
    (h : checkWallProximity device context = some c) :
    c.type = ConflictType.wallProximity ∧ c.severity = Severity.error ∧
      ∃ w m, c.message = ConflictMessage.wallMsg device.name w m MIN_WALL_DISTANCE ∧
        m < MIN_WALL_DISTANCE := by
  rw [checkWallProximity] at h
  rcases hfind : findContainingRoom device context.rooms with - | room
  · rw [hfind] at h
    exact Option.noConfusion h
  · rw [hfind] at h
    simp only [] at h
    by_cases hmin : min (min (min (device.x - room.x) (room.x + room.width - device.x))
        (device.y - room.y)) (room.y + room.height - device.y) < MIN_WALL_DISTANCE
    · rw [if_pos hmin] at h
      rw [← Option.some.inj h]
      exact ⟨rfl, rfl, _, _, rfl, hmin⟩
    · rw [if_neg hmin] at h
      exact Option.noConfusion h

lemma checkBoundary_some_shape (device : Device) (context : ValidationContext) (c : Conflict)
    (h : checkBoundary device context = some c) :
    c.type = ConflictType.outsideBoundary ∧ c.severity = Severity.error ∧
      c.autoFix = none ∧ c.message = ConflictMessage.boundaryMsg device.name := by
  rw [checkBoundary] at h
  rcases hfind : findContainingRoom device context.rooms with - | room
  · rw [hfind] at h
    rw [← Option.some.inj h]
    exact ⟨rfl, rfl, rfl, rfl⟩
  · rw [hfind] at h
    exact Option.noConfusion h

/-! Dispatch of a conflict attached by a validation pass back to the rule
evaluator that produced it. -/

lemma mem_validateDevice (device : Device) (context : ValidationContext) (c : Conflict)
    (h : c ∈ validateDevice device context) :
    checkOverlap device context = some c ∨ checkNFPASpacing device context = some c ∨
      checkWallProximity device context = some c ∨ checkBoundary device context = some c := by
  simp only [validateDevice, List.mem_append, Option.mem_toList, Option.mem_def] at h
  tauto

lemma validateDevice_mem_of_overlap (device : Device) (context : ValidationContext) (c : Conflict)
    (h : checkOverlap device context = some c) : c ∈ validateDevice device context := by
  simp [validateDevice, Option.mem_toList, h]

lemma mem_validateAllDevices_fst (blueprint : Blueprint) (d' : Device) :
    d' ∈ (validateAllDevices blueprint).1.devices ↔
      ∃ d ∈ blueprint.devices,
        { d with conflicts := validateDevice d (ctxOf blueprint) } = d' := by
  simp [validateAllDevices, List.mem_map]

lemma validateAllDevices_fst (blueprint : Blueprint) :
    (validateAllDevices blueprint).1 =
      { blueprint with devices := blueprint.devices.map (fun d =>
          { d with conflicts := validateDevice d (ctxOf blueprint) }) } := rfl

lemma validateAllDevices_fst_devices (blueprint : Blueprint) :
    (validateAllDevices blueprint).1.devices = blueprint.devices.map
      (fun d => { d with conflicts := validateDevice d (ctxOf blueprint) }) := rfl

lemma validateAllDevices_snd (blueprint : Blueprint) :
    (validateAllDevices blueprint).2 =
      blueprint.devices.flatMap fun d => validateDevice d (ctxOf blueprint) := rfl

/-! No rule evaluator reads the `conflicts` field of any device.  This is
made explicit by the following lemmas: every check is invariant under
erasing the `conflicts` fields of the device under test and of every
device in the context (and none reads `context.blueprint`).  These feed
the determinism theorem for repeated validation passes, whose input
devices differ from the original ones exactly in their `conflicts`
field. -/

lemma distSq_strip (d o : Device) : distSq (strip d) (strip o) = distSq d o := rfl

lemma overlapConflict_strip (d o : Device) :
    overlapConflict (strip d) (strip o) = overlapConflict d o := rfl

lemma strip_id (d : Device) : (strip d).id = d.id := rfl

lemma strip_system (d : Device) : (strip d).system = d.system := rfl

lemma checkOverlapAux_strip (d : Device) :
    ∀ l : List Device, checkOverlapAux (strip d) (l.map strip) = checkOverlapAux d l := by
  intro l
  induction l with
  | nil => rfl
  | cons o rest ih =>
      simp only [List.map_cons, checkOverlapAux, strip_id, strip_system, distSq_strip,
        overlapConflict_strip, ih]

lemma nfpaStep_strip (d : Device) (acc : Option (Device × ℚ)) (o : Device) :
    nfpaStep (strip d) (acc.map (Prod.map strip id)) (strip o) =
      (nfpaStep d acc o).map (Prod.map strip id) := by
  by_cases h : nfpaElig d o
  · have h' : nfpaElig (strip d) (strip o) := h
    cases acc with
    | none =>
        rw [Option.map_none', nfpaStep_elig_none (strip d) (strip o) h',
          nfpaStep_elig_none d o h, Option.map_some']
        rfl
    | some q =>
        obtain ⟨nd, m⟩ := q
        rw [Option.map_some']
        by_cases hlt : distSq d o < m
        · have hlt' : distSq (strip d) (strip o) < m := hlt
          rw [show Prod.map strip id (nd, m) = (strip nd, m) from rfl,
            nfpaStep_elig_some_lt (strip d) (strip o) (strip nd) m h' hlt',
            nfpaStep_elig_some_lt d o nd m h hlt, Option.map_some']
          rfl
        · have hlt' : ¬ distSq (strip d) (strip o) < m := hlt
          rw [show Prod.map strip id (nd, m) = (strip nd, m) from rfl,
            nfpaStep_elig_some_ge (strip d) (strip o) (strip nd) m h' hlt',
            nfpaStep_elig_some_ge d o nd m h hlt, Option.map_some']
          rfl
  · have h' : ¬ nfpaElig (strip d) (strip o) := h
    rw [nfpaStep_not_elig (strip d) _ _ h', nfpaStep_not_elig d _ _ h]

lemma nfpaFold_strip (d : Device) :
    ∀ (l : List Device) (acc : Option (Device × ℚ)),
      (l.map strip).foldl (nfpaStep (strip d)) (acc.map (Prod.map strip id)) =
        (l.foldl (nfpaStep d) acc).map (Prod.map strip id) := by
  intro l
  induction l with
  | nil => intro acc; rfl
  | cons o rest ih =>
      intro acc
      rw [List.map_cons, List.foldl_cons, List.foldl_cons, nfpaStep_strip, ih]

lemma nfpaFold_strip_none (d : Device) (l : List Device) :
    (l.map strip).foldl (nfpaStep (strip d)) none =
      (l.foldl (nfpaStep d) none).map (Prod.map strip id) := by
  have h := nfpaFold_strip d l none
  rwa [Option.map_none'] at h

lemma checkNFPASpacing_strip (d : Device) (devs : List Device) (r r' : List Room)
    (b b' : Blueprint) :
    checkNFPASpacing (strip d) { devices := devs.map strip, rooms := r', blueprint := b' } =
      checkNFPASpacing d { devices := devs, rooms := r, blueprint := b } := by
  rw [checkNFPASpacing, checkNFPASpacing]
  by_cases h1 : d.system ≠ SystemType.fire
  · rw [if_pos h1, if_pos (show (strip d).system ≠ SystemType.fire from h1)]
  · rw [if_neg h1, if_neg (show ¬ (strip d).system ≠ SystemType.fire from h1)]
    by_cases h2 : NFPA_SPACING d.type = 0
    · rw [if_pos h2, if_pos (show NFPA_SPACING (strip d).type = 0 from h2)]
    · rw [if_neg h2, if_neg (show ¬ NFPA_SPACING (strip d).type = 0 from h2)]
      show (match (devs.map strip).foldl (nfpaStep (strip d)) none with
        | none => none
        | some (nearestDevice, minDistSq) => _) = _
      rw [nfpaFold_strip_none]
      rcases devs.foldl (nfpaStep d) none with - | ⟨nd, m⟩
      · rfl
      · rfl

lemma checkWallProximity_strip (d : Device) (devs devs' : List Device) (r : List Room)
    (b b' : Blueprint) :
    checkWallProximity (strip d) { devices := devs', rooms := r, blueprint := b' } =
      checkWallProximity d { devices := devs, rooms := r, blueprint := b } := rfl

lemma checkBoundary_strip (d : Device) (devs devs' : List Device) (r : List Room)
    (b b' : Blueprint) :
    checkBoundary (strip d) { devices := devs', rooms := r, blueprint := b' } =
      checkBoundary d { devices := devs, rooms := r, blueprint := b } := rfl

lemma validateDevice_strip (d : Device) (devs : List Device) (r : List Room)
    (b b' : Blueprint) :
    validateDevice (strip d) { devices := devs.map strip, rooms := r, blueprint := b' } =
      validateDevice d { devices := devs, rooms := r, blueprint := b } := by
  rw [validateDevice, validateDevice]
  rw [show checkOverlap (strip d) { devices := devs.map strip, rooms := r, blueprint := b' } =
      checkOverlapAux (strip d) (devs.map strip) from rfl]
  rw [checkOverlapAux_strip]
  rw [show checkOverlapAux d devs =
      checkOverlap d { devices := devs, rooms := r, blueprint := b } from rfl]
  rw [checkNFPASpacing_strip d devs r r b b',
    checkWallProximity_strip d devs (devs.map strip) r b b',
    checkBoundary_strip d devs (devs.map strip) r b b']

/-- Every check is invariant under overwriting `conflicts` fields: the
device under test may carry any `conflicts` value and the context's
devices may have had their `conflicts` fields rewritten arbitrarily. -/
lemma validateDevice_conflicts_irrelevant (d : Device) (cs : List Conflict)
    (devs : List Device) (f : Device → List Conflict) (r : List Room) (b b' : Blueprint) :
    validateDevice { d with conflicts := cs }
        { devices := devs.map (fun e => { e with conflicts := f e }), rooms := r,
          blueprint := b' } =
      validateDevice d { devices := devs, rooms := r, blueprint := b } := by
  have h2 : (devs.map (fun e => { e with conflicts := f e })).map strip = devs.map strip := by
    rw [List.map_map]
    rfl
  calc validateDevice { d with conflicts := cs }
        { devices := devs.map (fun e => { e with conflicts := f e }), rooms := r,
          blueprint := b' }
      = validateDevice (strip { d with conflicts := cs })
          { devices := (devs.map (fun e => { e with conflicts := f e })).map strip, rooms := r,
            blueprint := b } :=
        (validateDevice_strip { d with conflicts := cs }
          (devs.map (fun e => { e with conflicts := f e })) r b' b).symm
    _ = validateDevice (strip d) { devices := devs.map strip, rooms := r, blueprint := b } := by
        rw [h2]
        rfl
    _ = validateDevice d { devices := devs, rooms := r, blueprint := b } :=
        validateDevice_strip d devs r b b

lemma flatMap_map_eq (l : List Device) (g : Device → List Conflict) (f : Device → Device) :
    (l.map f).flatMap g = l.flatMap fun d => g (f d) := by
  induction l with
  | nil => rfl
  | cons o rest ih => simp [List.flatMap_cons, ih]

/-- Claim C5.  Determinism of the validation pass: the source's
`validateAllDevices` mutates each device's `conflicts` field in place, so
"repeated calls on the same input" means calling it again on the
blueprint it produced.  The second call returns the very same updated
blueprint and the very same flat conflict list, byte for byte — the pass
is a pure function of the devices' non-`conflicts` fields and the rooms,
and overwriting `conflicts` does not perturb it. -/
theorem c5_determinism (bp : Blueprint) :
    validateAllDevices (validateAllDevices bp).1 = validateAllDevices bp := by
  have key : ∀ d : Device,
      validateDevice { d with conflicts := validateDevice d (ctxOf bp) }
        (ctxOf (validateAllDevices bp).1) = validateDevice d (ctxOf bp) := fun d =>
    validateDevice_conflicts_irrelevant d (validateDevice d (ctxOf bp)) bp.devices
      (fun e => validateDevice e (ctxOf bp)) bp.rooms bp (validateAllDevices bp).1
  have hcomp : ((fun e : Device =>
        { e with conflicts := validateDevice e (ctxOf (validateAllDevices bp).1) }) ∘
      (fun d : Device => { d with conflicts := validateDevice d (ctxOf bp) })) =
      fun d : Device => { d with conflicts := validateDevice d (ctxOf bp) } := by
    funext d
    show ({ { d with conflicts := validateDevice d (ctxOf bp) } with
        conflicts := validateDevice { d with conflicts := validateDevice d (ctxOf bp) }
          (ctxOf (validateAllDevices bp).1) } : Device) =
      { d with conflicts := validateDevice d (ctxOf bp) }
    rw [key d]
  have h1 : (validateAllDevices (validateAllDevices bp).1).1 = (validateAllDevices bp).1 := by
    rw [validateAllDevices_fst ((validateAllDevices bp).1)]
    rw [validateAllDevices_fst_devices bp, List.map_map, hcomp,
      ← validateAllDevices_fst_devices bp]
  have h2 : (validateAllDevices (validateAllDevices bp).1).2 = (validateAllDevices bp).2 := by
    rw [validateAllDevices_snd ((validateAllDevices bp).1), validateAllDevices_snd bp]
    rw [validateAllDevices_fst_devices bp, flatMap_map_eq]
    have hfun : (fun d : Device =>
        validateDevice { d with conflicts := validateDevice d (ctxOf bp) }
          (ctxOf (validateAllDevices bp).1)) =
        fun d : Device => validateDevice d (ctxOf bp) := funext key
    rw [hfun]
  exact Prod.ext h1 h2

/-- Claim C7.  Overlap policy: a conflict is reported exactly when some
other same-system device lies strictly within `OVERLAP_RADIUS` (embedded
as the squared comparison, per `sqrt_distSq_lt_iff`); the whole result is
the first hit in iteration order (`List.find?`), so `relatedDeviceId` is
the first such device, not the nearest; and if every same-system other
device is at distance at least `OVERLAP_RADIUS` (in particular exactly
`OVERLAP_RADIUS` or `OVERLAP_RADIUS + 1` away) no conflict is
produced. -/
theorem c7_overlap_policy (device : Device) (context : ValidationContext) :
    ((checkOverlap device context).isSome ↔
      ∃ o ∈ context.devices, o.id ≠ device.id ∧ o.system = device.system ∧
        distSq device o < OVERLAP_RADIUS ^ 2) ∧
    (checkOverlap device context =
      (context.devices.find? (overlapHit device)).map (overlapConflict device)) ∧
    (∀ c, checkOverlap device context = some c →
      ∃ o ∈ context.devices, context.devices.find? (overlapHit device) = some o ∧
        c.relatedDeviceId = some o.id) ∧
    ((∀ o ∈ context.devices, o.id ≠ device.id → o.system = device.system →
        OVERLAP_RADIUS ^ 2 ≤ distSq device o) → checkOverlap device context = none) := by
  refine ⟨checkOverlap_isSome_iff device context,
    checkOverlapAux_eq_find device context.devices, ?_, ?_⟩
  · intro c hc
    rw [checkOverlap, checkOverlapAux_eq_find] at hc
    rcases Option.map_eq_some'.mp hc with ⟨o, hfind, hco⟩
    exact ⟨o, List.mem_of_find?_eq_some hfind, hfind, by rw [← hco]; rfl⟩
  · intro hfar
    rcases h : checkOverlap device context with - | c
    · rfl
    · exfalso
      rcases checkOverlap_eq_some device context c h with ⟨o, ho, h1, h2, h3, -⟩
      exact absurd h3 (not_lt.mpr (hfar o ho h1 h2))

/-- Claim C4.  The Code-Spacing evaluator performs a true minimum search
among same-type, same-system fire devices and reports (with warning
severity) exactly when that minimum distance strictly exceeds the table
value converted to inches (×12); the related device achieves the minimum
distance.  Distances are embedded squared, per `lt_sqrt_distSq_iff` and
`sqrt_distSq_lt_sqrt_iff`. -/
theorem c4_nfpa_nearest (device : Device) (context : ValidationContext)
    (hfire : device.system = SystemType.fire) (htable : NFPA_SPACING device.type ≠ 0) :
    ((checkNFPASpacing device context).isSome ↔
      ∃ n ∈ context.devices, n.id ≠ device.id ∧ n.system = SystemType.fire ∧
        n.type = device.type ∧ (NFPA_SPACING device.type * 12) ^ 2 < distSq device n ∧
        ∀ o ∈ context.devices, o.id ≠ device.id → o.system = SystemType.fire →
          o.type = device.type → distSq device n ≤ distSq device o) ∧
    ∀ c, checkNFPASpacing device context = some c →
      c.severity = Severity.warning ∧
      ∃ n ∈ context.devices, c.relatedDeviceId = some n.id ∧ n.id ≠ device.id ∧
        n.system = SystemType.fire ∧ n.type = device.type ∧
        (NFPA_SPACING device.type * 12) ^ 2 < distSq device n ∧
        ∀ o ∈ context.devices, o.id ≠ device.id → o.system = SystemType.fire →
          o.type = device.type → distSq device n ≤ distSq device o := by
  constructor
  · constructor
    · intro hsome
      obtain ⟨c, hc⟩ := Option.isSome_iff_exists.mp hsome
      rcases checkNFPASpacing_eq_some device context c hc with ⟨-, -, n, hn, helig, hgt, hmin, -⟩
      exact ⟨n, hn, helig.1, helig.2.1, helig.2.2, hgt,
        fun o ho h1 h2 h3 => hmin o ho ⟨h1, h2, h3⟩⟩
    · rintro ⟨n, hn, h1, h2, h3, hgt, hmin⟩
      exact checkNFPASpacing_isSome_of device context hfire htable n hn ⟨h1, h2, h3⟩ hgt
        (fun o ho helig => hmin o ho helig.1 helig.2.1 helig.2.2)
  · intro c hc
    rcases checkNFPASpacing_eq_some device context c hc with ⟨-, -, n, hn, helig, hgt, hmin, rfl⟩
    exact ⟨rfl, n, hn, rfl, helig.1, helig.2.1, helig.2.2, hgt,
      fun o ho h1 h2 h3 => hmin o ho ⟨h1, h2, h3⟩⟩

/-- Claim C6.  Wall-proximity tie-break: when a device in a containing
room is closer than `MIN_WALL_DISTANCE` to its nearest wall, a conflict
is produced whose wall name is the first of left, right, top, bottom to
attain the minimum distance: "left" whenever the left distance is a
(possibly tied) minimum, "right" only when strictly below the left
distance, and so on. -/
theorem c6_wall_tiebreak (device : Device) (context : ValidationContext) (room : Room)
    (hroom : findContainingRoom device context.rooms = some room)
    (hmin : wallMinDist device room < MIN_WALL_DISTANCE) :
    ∃ c, checkWallProximity device context = some c ∧
      ((device.x - room.x ≤ room.x + room.width - device.x ∧
        device.x - room.x ≤ device.y - room.y ∧
        device.x - room.x ≤ room.y + room.height - device.y) →
          c.wallNameOf = some "left") ∧
      ((room.x + room.width - device.x < device.x - room.x ∧
        room.x + room.width - device.x ≤ device.y - room.y ∧
        room.x + room.width - device.x ≤ room.y + room.height - device.y) →
          c.wallNameOf = some "right") ∧
      ((device.y - room.y < device.x - room.x ∧
        device.y - room.y < room.x + room.width - device.x ∧
        device.y - room.y ≤ room.y + room.height - device.y) →
          c.wallNameOf = some "top") ∧
      ((room.y + room.height - device.y < device.x - room.x ∧
        room.y + room.height - device.y < room.x + room.width - device.x ∧
        room.y + room.height - device.y < device.y - room.y) →
          c.wallNameOf = some "bottom") := by
  refine ⟨wallConflict device room, ?_, ?_, ?_, ?_, ?_⟩
  · rw [checkWallProximity_of_room device context room hroom, if_pos hmin]
  · rintro ⟨h1, h2, h3⟩
    have hdl : wallMinDist device room = device.x - room.x := by
      rw [wallMinDist, min_eq_left h1, min_eq_left h2, min_eq_left h3]
    rw [wallConflict_wallNameOf, wallNameChain, if_pos hdl]
  · rintro ⟨h1, h2, h3⟩
    have hdr : wallMinDist device room = room.x + room.width - device.x := by
      rw [wallMinDist, min_eq_right h1.le, min_eq_left h2, min_eq_left h3]
    rw [wallConflict_wallNameOf, wallNameChain, if_neg (by rw [hdr]; exact h1.ne),
      if_pos hdr]
  · rintro ⟨h1, h2, h3⟩
    have hdt : wallMinDist device room = device.y - room.y := by
      rw [wallMinDist, min_eq_right (le_min h1.le h2.le), min_eq_left h3]
    rw [wallConflict_wallNameOf, wallNameChain, if_neg (by rw [hdt]; exact h1.ne),
      if_neg (by rw [hdt]; exact h2.ne), if_pos hdt]
  · rintro ⟨h1, h2, h3⟩
    have hdb : wallMinDist device room = room.y + room.height - device.y := by
      rw [wallMinDist, min_eq_right (le_min (le_min h1.le h2.le) h3.le)]
    rw [wallConflict_wallNameOf, wallNameChain, if_neg (by rw [hdb]; exact h1.ne),
      if_neg (by rw [hdb]; exact h2.ne), if_neg (by rw [hdb]; exact h3.ne)]

/-- Claim C3, amended.  For a device one inch from the left wall of its
containing room whose wall-proximity conflict names the left wall, the
auto-fix moves it to `x = room.x + MIN_WALL_DISTANCE + 1` with `y`
unchanged, putting it at least `MIN_WALL_DISTANCE` from the left wall;
re-validating the corrected position (when it still resolves to the same
room) can never produce a conflict naming the left wall again — though,
as the counterexample shows, it may name a different wall, which is why
the original claim's "attaches no wall-proximity conflict" is weakened to
"attaches no wall-proximity conflict naming the left wall". -/
theorem c3_wall_autofix_amended (device : Device) (context : ValidationContext) (room : Room)
    (c : Conflict)
    (hroom : findContainingRoom device context.rooms = some room)
    (hc : checkWallProximity device context = some c)
    (hleft : c.wallNameOf = some "left")
    (hx : device.x = room.x + 1)
    (hroom' : findContainingRoom { device with x := room.x + MIN_WALL_DISTANCE + 1 }
        context.rooms = some room) :
    c.autoFix = some (FixCmd.moveTo (room.x + MIN_WALL_DISTANCE + 1) device.y) ∧
    MIN_WALL_DISTANCE ≤ (room.x + MIN_WALL_DISTANCE + 1) - room.x ∧
    ∀ c', checkWallProximity { device with x := room.x + MIN_WALL_DISTANCE + 1 } context =
        some c' → c'.wallNameOf ≠ some "left" := by
  rw [checkWallProximity_of_room device context room hroom] at hc
  by_cases hmin : wallMinDist device room < MIN_WALL_DISTANCE
  · rw [if_pos hmin] at hc
    have hcc : c = wallConflict device room := (Option.some.inj hc).symm
    subst hcc
    rw [wallConflict_wallNameOf] at hleft
    have hname : wallNameChain device room = "left" := Option.some.inj hleft
    have hdl : wallMinDist device room = device.x - room.x := wallNameChain_eq_left _ _ hname
    refine ⟨?_, ?_, ?_⟩
    · show some (FixCmd.moveTo (wallFixTarget device room).1 (wallFixTarget device room).2) = _
      rw [wallFixTarget, if_pos hdl]
    · rw [MIN_WALL_DISTANCE]
      linarith
    · intro c' hc' habs
      rw [checkWallProximity_of_room _ context room hroom'] at hc'
      by_cases hmin' : wallMinDist { device with x := room.x + MIN_WALL_DISTANCE + 1 } room <
          MIN_WALL_DISTANCE
      · rw [if_pos hmin'] at hc'
        have hcc' : c' = wallConflict { device with x := room.x + MIN_WALL_DISTANCE + 1 } room :=
          (Option.some.inj hc').symm
        subst hcc'
        rw [wallConflict_wallNameOf] at habs
        have hname' := Option.some.inj habs
        have hdl' := wallNameChain_eq_left _ _ hname'
        have hxval : ({ device with x := room.x + MIN_WALL_DISTANCE + 1 } : Device).x - room.x =
            MIN_WALL_DISTANCE + 1 := by
          show room.x + MIN_WALL_DISTANCE + 1 - room.x = MIN_WALL_DISTANCE + 1
          ring
        rw [hdl', hxval] at hmin'
        rw [MIN_WALL_DISTANCE] at hmin'
        linarith
      · rw [if_neg hmin'] at hc'
        exact Option.noConfusion hc'
  · rw [if_neg hmin] at hc
    exact Option.noConfusion hc

lemma checkBoundary_of_no_room (device : Device) (context : ValidationContext)
    (hroom : findContainingRoom device context.rooms = none) :
    checkBoundary device context = some (boundaryConflict device) := by
  rw [checkBoundary, hroom]
  rfl

/-- Claim C8.  A device outside every room (under the inclusive
point-in-rectangle test) receives, in a full validation pass, exactly one
outside-boundary conflict and no wall-proximity conflict. -/
theorem c8_boundary_exclusive (bp : Blueprint) (d' : Device)
    (hd : d' ∈ (validateAllDevices bp).1.devices)
    (hout : ∀ r ∈ bp.rooms, pointInRect d' r = false) :
    d'.conflicts.countP (fun c => decide (c.type = ConflictType.outsideBoundary)) = 1 ∧
    d'.conflicts.countP (fun c => decide (c.type = ConflictType.wallProximity)) = 0 := by
  rcases (mem_validateAllDevices_fst bp d').mp hd with ⟨d, hdmem, rfl⟩
  have hout' : ∀ r ∈ bp.rooms, pointInRect d r = false := hout
  have hfind : findContainingRoom d (ctxOf bp).rooms = none := by
    rw [findContainingRoom, List.find?_eq_none]
    intro r hr
    rw [hout' r hr]
    simp
  have hwall : checkWallProximity d (ctxOf bp) = none :=
    checkWallProximity_of_no_room d (ctxOf bp) hfind
  have hbound : checkBoundary d (ctxOf bp) = some (boundaryConflict d) :=
    checkBoundary_of_no_room d (ctxOf bp) hfind
  show (validateDevice d (ctxOf bp)).countP _ = 1 ∧ (validateDevice d (ctxOf bp)).countP _ = 0
  rw [validateDevice, hwall, hbound]
  rcases ho : checkOverlap d (ctxOf bp) with - | oc
  · rcases hn : checkNFPASpacing d (ctxOf bp) with - | nc
    · simp [List.countP_cons, boundaryConflict]
    · have hnct := (checkNFPASpacing_some_shape d (ctxOf bp) nc hn).1
      simp [List.countP_cons, List.countP_append, boundaryConflict, hnct]
  · have hoct := checkOverlap_some_type d (ctxOf bp) oc ho
    rcases hn : checkNFPASpacing d (ctxOf bp) with - | nc
    · simp [List.countP_cons, List.countP_append, boundaryConflict, hoct]
    · have hnct := (checkNFPASpacing_some_shape d (ctxOf bp) nc hn).1
      simp [List.countP_cons, List.countP_append, boundaryConflict, hoct, hnct]

/-- Claim C9.  No Code-Spacing (`nfpa-spacing`) or Boundary-Containment
(`outside-boundary`) conflict produced by a validation pass carries an
auto-fix: the `autoFix` capability is `none` for both kinds, on all
inputs. -/
theorem c9_no_autofix (bp : Blueprint) (d' : Device)
    (hd : d' ∈ (validateAllDevices bp).1.devices) (c : Conflict) (hc : c ∈ d'.conflicts)
    (hk : c.type = ConflictType.nfpaSpacing ∨ c.type = ConflictType.outsideBoundary) :
    c.autoFix = none := by
  rcases (mem_validateAllDevices_fst bp d').mp hd with ⟨d, -, rfl⟩
  have hc' : c ∈ validateDevice d (ctxOf bp) := hc
  rcases mem_validateDevice d (ctxOf bp) c hc' with h | h | h | h
  · have ht := checkOverlap_some_type d (ctxOf bp) c h
    rcases hk with hk | hk <;> exact ConflictType.noConfusion (ht.symm.trans hk)
  · exact (checkNFPASpacing_some_shape d (ctxOf bp) c h).2.2
  · have ht := (checkWallProximity_some_shape d (ctxOf bp) c h).1
    rcases hk with hk | hk <;> exact ConflictType.noConfusion (ht.symm.trans hk)
  · exact (checkBoundary_some_shape d (ctxOf bp) c h).2.2.1

/-- Claim C2, amended.  Conflict messages of the Code-Spacing and
Wall-Proximity evaluators embed the numeric quantities that triggered
them (measured distance strictly beyond, respectively below, the required
value, with the required value also carried); the Overlap and
Boundary-Containment messages, as the counterexample shows, embed no
numeric quantities, so the original "every conflict message" is weakened
to these two kinds. -/
theorem c2_messages_amended (bp : Blueprint) (d' : Device)
    (hd : d' ∈ (validateAllDevices bp).1.devices) (c : Conflict) (hc : c ∈ d'.conflicts) :
    (c.type = ConflictType.nfpaSpacing →
      c.message.mentionsQuantity = true ∧
      ∃ devName measuredSq nearestName maxFt,
        c.message = ConflictMessage.nfpaMsg devName measuredSq nearestName maxFt ∧
        (maxFt * 12) ^ 2 < measuredSq) ∧
    (c.type = ConflictType.wallProximity →
      c.message.mentionsQuantity = true ∧
      ∃ devName wallName measured,
        c.message = ConflictMessage.wallMsg devName wallName measured MIN_WALL_DISTANCE ∧
        measured < MIN_WALL_DISTANCE) := by
  rcases (mem_validateAllDevices_fst bp d').mp hd with ⟨d, -, rfl⟩
  have hc' : c ∈ validateDevice d (ctxOf bp) := hc
  rcases mem_validateDevice d (ctxOf bp) c hc' with h | h | h | h
  · have ht := checkOverlap_some_type d (ctxOf bp) c h
    constructor <;> intro hk <;> exact ConflictType.noConfusion (ht.symm.trans hk)
  · rcases checkNFPASpacing_eq_some d (ctxOf bp) c h with ⟨-, -, n, -, -, hgt, -, rfl⟩
    constructor
    · rintro -
      exact ⟨rfl, d.name, distSq d n, n.name, NFPA_SPACING d.type, rfl, hgt⟩
    · intro hk
      exact ConflictType.noConfusion hk
  · obtain ⟨ht, -, w, m, hmsg, hlt⟩ := checkWallProximity_some_shape d (ctxOf bp) c h
    constructor
    · intro hk
      exact ConflictType.noConfusion (ht.symm.trans hk)
    · rintro -
      refine ⟨?_, d.name, w, m, hmsg, hlt⟩
      rw [hmsg]
      rfl
  · obtain ⟨ht, -, -, -⟩ := checkBoundary_some_shape d (ctxOf bp) c h
    constructor <;> intro hk <;> exact ConflictType.noConfusion (ht.symm.trans hk)

/-- Claim C1, amended.  If a full pass attaches an overlap conflict to
device A with `relatedDeviceId` B (device ids being unique), then the
same pass also attaches an overlap conflict to B, found by B's own scan —
but, as the counterexample shows, its `relatedDeviceId` is B's *first*
in-radius same-system device, which need not be A, so the original
claim's "with relatedDeviceId A" is weakened to "against some same-system
device strictly within `OVERLAP_RADIUS` of B". -/
theorem c1_overlap_symmetry_amended (bp : Blueprint)
    (hnodup : (bp.devices.map Device.id).Nodup)
    (a' : Device) (ha' : a' ∈ (validateAllDevices bp).1.devices)
    (c : Conflict) (hc : c ∈ a'.conflicts) (hct : c.type = ConflictType.overlap)
    (b : Device) (hb : b ∈ bp.devices) (hrel : c.relatedDeviceId = some b.id) :
    ∃ b' ∈ (validateAllDevices bp).1.devices, b'.id = b.id ∧
      ∃ c' ∈ b'.conflicts, c'.type = ConflictType.overlap ∧
        ∃ w ∈ bp.devices, c'.relatedDeviceId = some w.id ∧ w.system = b.system ∧
          distSq b w < OVERLAP_RADIUS ^ 2 := by
  rcases (mem_validateAllDevices_fst bp a').mp ha' with ⟨a, hamem, rfl⟩
  have hc' : c ∈ validateDevice a (ctxOf bp) := hc
  have hover : checkOverlap a (ctxOf bp) = some c := by
    rcases mem_validateDevice a (ctxOf bp) c hc' with h | h | h | h
    · exact h
    · exact absurd ((checkNFPASpacing_some_shape a (ctxOf bp) c h).1.symm.trans hct)
        (by simp)
    · exact absurd ((checkWallProximity_some_shape a (ctxOf bp) c h).1.symm.trans hct)
        (by simp)
    · exact absurd ((checkBoundary_some_shape a (ctxOf bp) c h).1.symm.trans hct)
        (by simp)
  rcases checkOverlap_eq_some a (ctxOf bp) c hover with ⟨o, ho, hne, hsys, hdist, rfl⟩
  have hidrel : o.id = b.id := Option.some.inj hrel
  have hob : o = b := List.inj_on_of_nodup_map hnodup ho hb hidrel
  subst hob
  have hbsome : (checkOverlap o (ctxOf bp)).isSome := by
    rw [checkOverlap_isSome_iff]
    refine ⟨a, hamem, ?_, hsys.symm, ?_⟩
    · exact fun h => hne h.symm
    · rw [distSq_comm]
      exact hdist
  obtain ⟨c'', hc''⟩ := Option.isSome_iff_exists.mp hbsome
  rcases checkOverlap_eq_some o (ctxOf bp) c'' hc'' with ⟨w, hw, -, hwsys, hwdist, rfl⟩
  refine ⟨{ o with conflicts := validateDevice o (ctxOf bp) },
    (mem_validateAllDevices_fst bp _).mpr ⟨o, ho, rfl⟩, rfl,
    overlapConflict o w, ?_, rfl, w, hw, rfl, hwsys, ?_⟩
  · exact validateDevice_mem_of_overlap o (ctxOf bp) _ hc''
  · rw [distSq_comm] at hwdist
    rw [distSq_comm]
    exact hwdist

/-- Evaluating the overlap auto-fix at coincident devices: the stored
offset is the zero vector, `atan2(0, 0) = 0` (`Complex.arg_zero`), so the
direction falls back to `(cos 0, sin 0) = (1, 0)` and the result is the
finite position `(ox + OVERLAP_RADIUS + 2, oy)`. -/
lemma fixCmd_apply_pushFrom_zero (ox oy : ℚ) :
    FixCmd.apply (.pushFrom ox oy 0 0) =
      ((ox : ℝ) + ((OVERLAP_RADIUS : ℚ) : ℝ) + 2, (oy : ℝ)) := by
  have hz : (⟨((0 : ℚ) : ℝ), ((0 : ℚ) : ℝ)⟩ : ℂ) = 0 := by
    simp [Complex.ext_iff]
  rw [FixCmd.apply, hz, Complex.arg_zero, Real.cos_zero, Real.sin_zero]
  refine Prod.ext ?_ ?_ <;> simp <;> ring

/-- Claim C10.  For exactly coincident same-system devices the overlap
conflict's auto-fix is still a well-defined, deterministic position: the
stored closure data is `pushFrom other.x other.y 0 0`, and its real
evaluation — where `atan2(0,0) = 0` makes the direction the unit vector
`(1, 0)` — is exactly `(other.x + OVERLAP_RADIUS + 2, other.y)` (equal to
`(device.x + OVERLAP_RADIUS + 2, device.y)` by coincidence); no NaN can
arise since `Complex.arg` is total. -/
theorem c10_coincident_autofix (device : Device) (context : ValidationContext) (c : Conflict)
    (hcoin : ∀ o ∈ context.devices, o.x = device.x ∧ o.y = device.y)
    (hc : checkOverlap device context = some c) :
    c.autoFix = some (FixCmd.pushFrom device.x device.y 0 0) ∧
    ∀ f, c.autoFix = some f →
      FixCmd.apply f = ((device.x : ℝ) + ((OVERLAP_RADIUS : ℚ) : ℝ) + 2, (device.y : ℝ)) := by
  rcases checkOverlap_eq_some device context c hc with ⟨o, ho, -, -, -, rfl⟩
  obtain ⟨hx, hy⟩ := hcoin o ho
  have hfix : (overlapConflict device o).autoFix =
      some (FixCmd.pushFrom device.x device.y 0 0) := by
    show some (FixCmd.pushFrom o.x o.y (device.x - o.x) (device.y - o.y)) = _
    rw [hx, hy, sub_self, sub_self]
  refine ⟨hfix, ?_⟩
  intro f hf
  have hsome := (hfix.symm.trans hf)
  rw [← Option.some.inj hsome, fixCmd_apply_pushFrom_zero]

/-- Claim C1, counterexample.  In `c1bp` the full pass attaches to A an
overlap conflict with `relatedDeviceId` B, but the conflict it attaches
to B names X, not A: B's evaluation returns its first in-radius device,
so the pairwise relation is not mirrored back to A. -/
theorem c1_counterexample :
    overlapRelateds c1bp "A" = [some "B"] ∧ overlapRelateds c1bp "B" = [some "X"] ∧
      some "A" ∉ overlapRelateds c1bp "B" := by
  have hB : overlapRelateds c1bp "B" = [some "X"] := by
    norm_num [overlapRelateds, c1bp, mkBlueprint, c1devX, c1devA, c1devB, mkDevice,
      validateAllDevices, ctxOf, validateDevice, checkOverlap, checkOverlapAux,
      checkNFPASpacing, checkWallProximity, checkBoundary, findContainingRoom, distSq,
      OVERLAP_RADIUS, overlapConflict, NFPA_SPACING]
    simp +decide
  refine ⟨?_, hB, ?_⟩
  · norm_num [overlapRelateds, c1bp, mkBlueprint, c1devX, c1devA, c1devB, mkDevice,
      validateAllDevices, ctxOf, validateDevice, checkOverlap, checkOverlapAux,
      checkNFPASpacing, checkWallProximity, checkBoundary, findContainingRoom, distSq,
      OVERLAP_RADIUS, overlapConflict, NFPA_SPACING]
    simp +decide
  · rw [hB]
    simp

/-- Claim C2, counterexample.  The full pass on `c2bp` produces four
conflicts — an overlap and an outside-boundary conflict per device — and
none of their messages embeds any numeric quantity (the overlap template
is `Device overlaps with {name}`, the boundary template
`{name} is placed outside all room boundaries`), refuting "every conflict
message embeds the numeric quantities that triggered it". -/
theorem c2_counterexample :
    (validateAllDevices c2bp).2.map (fun c => (c.type, c.message.mentionsQuantity)) =
      [(ConflictType.overlap, false), (ConflictType.outsideBoundary, false),
       (ConflictType.overlap, false), (ConflictType.outsideBoundary, false)] := by
  norm_num [c2bp, mkBlueprint, c2devA, c2devB, mkDevice, validateAllDevices, ctxOf,
    validateDevice, checkOverlap, checkOverlapAux, checkNFPASpacing, checkWallProximity,
    checkBoundary, findContainingRoom, distSq, OVERLAP_RADIUS, overlapConflict,
    NFPA_SPACING, ConflictMessage.mentionsQuantity]
  simp +decide

/-- Claim C3, counterexample.  In `c3bp` the device at `(1, 2)` gets a
wall-proximity conflict naming "left" whose auto-fix is `(5, 2)` —
`x = room.x + MIN_WALL_DISTANCE + 1`, `y` unchanged — but re-running
validation at the corrected position still attaches a wall-proximity
conflict (naming "top", since the device stays 2 inches from the top
wall), refuting "re-running validation ... attaches no wall-proximity
conflict to that device". -/
theorem c3_counterexample :
    ((validateAllDevices c3bp).2.map (fun c => (c.type, c.wallNameOf, c.autoFix)) =
      [(ConflictType.wallProximity, some "left", some (FixCmd.moveTo 5 2))]) ∧
    ((validateAllDevices c3bpFixed).2.map (fun c => (c.type, c.wallNameOf)) =
      [(ConflictType.wallProximity, some "top")]) := by
  constructor
  · norm_num [c3bp, mkBlueprint, c3dev, mkDevice, roomA, validateAllDevices, ctxOf,
      validateDevice, checkOverlap, checkOverlapAux, checkNFPASpacing, checkWallProximity,
      checkBoundary, findContainingRoom, pointInRect, distSq, OVERLAP_RADIUS,
      MIN_WALL_DISTANCE, NFPA_SPACING, Conflict.wallNameOf, min_def]
  · norm_num [c3bpFixed, mkBlueprint, c3devFixed, mkDevice, roomA, validateAllDevices,
      ctxOf, validateDevice, checkOverlap, checkOverlapAux, checkNFPASpacing,
      checkWallProximity, checkBoundary, findContainingRoom, pointInRect, distSq,
      OVERLAP_RADIUS, MIN_WALL_DISTANCE, NFPA_SPACING, Conflict.wallNameOf, min_def]

/-! Witnesses: each applies its claim's theorem at a concrete layout,
discharging every hypothesis there. -/

/-- Claim C1, witness. -/
theorem c1_witness :
    ∃ b' ∈ (validateAllDevices c1wbp).1.devices, b'.id = c1wB.id ∧
      ∃ c' ∈ b'.conflicts, c'.type = ConflictType.overlap ∧
        ∃ w ∈ c1wbp.devices, c'.relatedDeviceId = some w.id ∧ w.system = c1wB.system ∧
          distSq c1wB w < OVERLAP_RADIUS ^ 2 := by
  have hval : validateDevice c1wA (ctxOf c1wbp) =
      [overlapConflict c1wA c1wB, boundaryConflict c1wA] := by
    norm_num [c1wbp, mkBlueprint, c1wA, c1wB, mkDevice, ctxOf, validateDevice,
      checkOverlap, checkOverlapAux, checkNFPASpacing, checkWallProximity, checkBoundary,
      findContainingRoom, distSq, OVERLAP_RADIUS, overlapConflict, boundaryConflict,
      NFPA_SPACING]
    simp +decide
  refine c1_overlap_symmetry_amended c1wbp (by decide)
    { c1wA with conflicts := validateDevice c1wA (ctxOf c1wbp) }
    ((mem_validateAllDevices_fst c1wbp _).mpr ⟨c1wA, by simp [c1wbp, mkBlueprint], rfl⟩)
    (overlapConflict c1wA c1wB) ?_ rfl c1wB (by simp [c1wbp, mkBlueprint]) rfl
  show overlapConflict c1wA c1wB ∈ validateDevice c1wA (ctxOf c1wbp)
  rw [hval]
  simp

/-- Claim C2, witness (at the wall-proximity conflict the pass attaches
in `c2wbp`). -/
theorem c2_witness :
    ((wallConflict c2wdev roomA).type = ConflictType.nfpaSpacing →
      (wallConflict c2wdev roomA).message.mentionsQuantity = true ∧
      ∃ devName measuredSq nearestName maxFt,
        (wallConflict c2wdev roomA).message =
          ConflictMessage.nfpaMsg devName measuredSq nearestName maxFt ∧
        (maxFt * 12) ^ 2 < measuredSq) ∧
    ((wallConflict c2wdev roomA).type = ConflictType.wallProximity →
      (wallConflict c2wdev roomA).message.mentionsQuantity = true ∧
      ∃ devName wallName measured,
        (wallConflict c2wdev roomA).message =
          ConflictMessage.wallMsg devName wallName measured MIN_WALL_DISTANCE ∧
        measured < MIN_WALL_DISTANCE) := by
  have hval : validateDevice c2wdev (ctxOf c2wbp) = [wallConflict c2wdev roomA] := by
    norm_num [c2wbp, mkBlueprint, c2wdev, mkDevice, roomA, ctxOf, validateDevice,
      checkOverlap, checkOverlapAux, checkNFPASpacing, checkWallProximity, checkBoundary,
      findContainingRoom, pointInRect, distSq, OVERLAP_RADIUS, MIN_WALL_DISTANCE,
      NFPA_SPACING, wallConflict, wallNameChain, wallMinDist, wallFixTarget, min_def]
  refine c2_messages_amended c2wbp
    { c2wdev with conflicts := validateDevice c2wdev (ctxOf c2wbp) }
    ((mem_validateAllDevices_fst c2wbp _).mpr ⟨c2wdev, by simp [c2wbp, mkBlueprint], rfl⟩)
    (wallConflict c2wdev roomA) ?_
  show wallConflict c2wdev roomA ∈ validateDevice c2wdev (ctxOf c2wbp)
  rw [hval]
  simp

/-- Claim C3, witness (the device of `c3bp`, 1 inch from the left wall of
its room). -/
theorem c3_witness :
    (wallConflict c3dev roomA).autoFix =
      some (FixCmd.moveTo (roomA.x + MIN_WALL_DISTANCE + 1) c3dev.y) ∧
    MIN_WALL_DISTANCE ≤ (roomA.x + MIN_WALL_DISTANCE + 1) - roomA.x ∧
    ∀ c', checkWallProximity { c3dev with x := roomA.x + MIN_WALL_DISTANCE + 1 }
        (ctxOf c3bp) = some c' → c'.wallNameOf ≠ some "left" := by
  have hroom : findContainingRoom c3dev (ctxOf c3bp).rooms = some roomA := by
    norm_num [c3bp, mkBlueprint, c3dev, mkDevice, roomA, ctxOf, findContainingRoom,
      pointInRect]
  have hroom' : findContainingRoom { c3dev with x := roomA.x + MIN_WALL_DISTANCE + 1 }
      (ctxOf c3bp).rooms = some roomA := by
    norm_num [c3bp, mkBlueprint, c3dev, mkDevice, roomA, ctxOf, findContainingRoom,
      pointInRect, MIN_WALL_DISTANCE]
  have hmin : wallMinDist c3dev roomA < MIN_WALL_DISTANCE := by
    norm_num [wallMinDist, c3dev, mkDevice, roomA, MIN_WALL_DISTANCE, min_def]
  have hc : checkWallProximity c3dev (ctxOf c3bp) = some (wallConflict c3dev roomA) := by
    rw [checkWallProximity_of_room c3dev (ctxOf c3bp) roomA hroom, if_pos hmin]
  have hleft : (wallConflict c3dev roomA).wallNameOf = some "left" := by
    rw [wallConflict_wallNameOf]
    norm_num [wallNameChain, wallMinDist, c3dev, mkDevice, roomA, min_def]
  exact c3_wall_autofix_amended c3dev (ctxOf c3bp) roomA (wallConflict c3dev roomA)
    hroom hc hleft (by norm_num [c3dev, mkDevice, roomA]) hroom'

/-- Claim C4, witness: the device at 80 ft reports, and its recorded
nearest neighbor is the device at 40 ft (distance 40 ft > 30 ft), not the
one at 0 ft. -/
theorem c4_witness :
    (checkNFPASpacing c4dev2 c4ctx).isSome = true ∧
    (checkNFPASpacing c4dev2 c4ctx).map (fun c => c.relatedDeviceId) = some (some "S1") := by
  constructor
  · refine ((c4_nfpa_nearest c4dev2 c4ctx rfl
      (by norm_num [NFPA_SPACING, c4dev2, mkDevice])).1).mpr ⟨c4dev1, ?_, ?_, rfl, rfl, ?_, ?_⟩
    · simp [c4ctx]
    · simp [c4dev1, c4dev2, mkDevice]
    · norm_num [distSq, NFPA_SPACING, c4dev1, c4dev2, mkDevice]
    · intro o ho h1 h2 h3
      have ho' : o = c4dev0 ∨ o = c4dev1 ∨ o = c4dev2 := by simpa [c4ctx] using ho
      rcases ho' with rfl | rfl | rfl
      · norm_num [distSq, c4dev0, c4dev1, c4dev2, mkDevice]
      · norm_num [distSq, c4dev1, c4dev2, mkDevice]
      · exact absurd rfl h1
  · norm_num [checkNFPASpacing, c4ctx, c4dev0, c4dev1, c4dev2, mkDevice, distSq,
      nfpaStep, NFPA_SPACING]
    simp +decide

/-- Claim C6, witness: the left/top tie reports "left". -/
theorem c6_witness :
    (checkWallProximity c6dev c6ctx).map (fun c => c.wallNameOf) = some (some "left") := by
  obtain ⟨c, hc, hl, -, -, -⟩ := c6_wall_tiebreak c6dev c6ctx roomA
    (by norm_num [c6ctx, findContainingRoom, pointInRect, c6dev, mkDevice, roomA])
    (by norm_num [wallMinDist, MIN_WALL_DISTANCE, c6dev, mkDevice, roomA, min_def])
  rw [hc, Option.map_some', hl (by norm_num [c6dev, mkDevice, roomA])]

/-- Claim C7, witness: at distance 13 and at distance exactly 12 no
overlap conflict is produced. -/
theorem c7_witness :
    checkOverlap c7devA c7ctx13 = none ∧ checkOverlap c7devA c7ctx12 = none := by
  constructor
  · apply (c7_overlap_policy c7devA c7ctx13).2.2.2
    intro o ho h1 h2
    have ho' : o = c7devA ∨ o = c7devB := by simpa [c7ctx13] using ho
    rcases ho' with rfl | rfl
    · exact absurd rfl h1
    · norm_num [distSq, c7devA, c7devB, mkDevice, OVERLAP_RADIUS]
  · apply (c7_overlap_policy c7devA c7ctx12).2.2.2
    intro o ho h1 h2
    have ho' : o = c7devA ∨ o = c7devC := by simpa [c7ctx12] using ho
    rcases ho' with rfl | rfl
    · exact absurd rfl h1
    · norm_num [distSq, c7devA, c7devC, mkDevice, OVERLAP_RADIUS]

/-- Claim C8, witness. -/
theorem c8_witness :
    c8updated.conflicts.countP (fun c => decide (c.type = ConflictType.outsideBoundary)) = 1 ∧
    c8updated.conflicts.countP (fun c => decide (c.type = ConflictType.wallProximity)) = 0 := by
  refine c8_boundary_exclusive c8bp c8updated
    ((mem_validateAllDevices_fst c8bp _).mpr ⟨c8dev, by simp [c8bp, mkBlueprint], rfl⟩) ?_
  intro r hr
  have hr' : r = roomA := by simpa [c8bp, mkBlueprint] using hr
  subst hr'
  norm_num [pointInRect, c8updated, c8dev, mkDevice, roomA]

/-- Claim C9, witness (at the outside-boundary conflict of `c9bp`). -/
theorem c9_witness : (boundaryConflict c9dev).autoFix = none := by
  have hval : validateDevice c9dev (ctxOf c9bp) = [boundaryConflict c9dev] := by
    norm_num [c9bp, mkBlueprint, c9dev, mkDevice, ctxOf, validateDevice, checkOverlap,
      checkOverlapAux, checkNFPASpacing, checkWallProximity, checkBoundary,
      findContainingRoom, boundaryConflict, NFPA_SPACING]
  refine c9_no_autofix c9bp c9updated
    ((mem_validateAllDevices_fst c9bp _).mpr ⟨c9dev, by simp [c9bp, mkBlueprint], rfl⟩)
    (boundaryConflict c9dev) ?_ (Or.inr rfl)
  show boundaryConflict c9dev ∈ validateDevice c9dev (ctxOf c9bp)
  rw [hval]
  simp

/-- Claim C10, witness: the coincident pair's auto-fix data is
`pushFrom 5 7 0 0` and evaluates to `(19, 7)` — finite, no NaN. -/
theorem c10_witness :
    (overlapConflict c10devA c10devB).autoFix = some (FixCmd.pushFrom 5 7 0 0) ∧
    FixCmd.apply (FixCmd.pushFrom 5 7 0 0) = ((19 : ℝ), (7 : ℝ)) := by
  have hc : checkOverlap c10devA c10ctx = some (overlapConflict c10devA c10devB) := by
    norm_num [checkOverlap, checkOverlapAux, c10ctx, c10devA, c10devB, mkDevice, distSq,
      OVERLAP_RADIUS]
    simp +decide
  have hcoin : ∀ o ∈ c10ctx.devices, o.x = c10devA.x ∧ o.y = c10devA.y := by
    intro o ho
    have ho' : o = c10devA ∨ o = c10devB := by simpa [c10ctx] using ho
    rcases ho' with rfl | rfl
    · exact ⟨rfl, rfl⟩
    · exact ⟨rfl, rfl⟩
  obtain ⟨h1, h2⟩ := c10_coincident_autofix c10devA c10ctx
    (overlapConflict c10devA c10devB) hcoin hc
  refine ⟨h1, ?_⟩
  have h3 := h2 (FixCmd.pushFrom 5 7 0 0) h1
  rw [h3]
  norm_num [OVERLAP_RADIUS, c10devA, mkDevice, Prod.ext_iff]

end Volt
